import Mathlib

/-!
Verification of the roster-resolution and attendance-metrics engine of the
Dutch-Trails-QR attendance system.

Shallow embedding conventions:
* an instant (JS `Date` / ISO timestamp) is its number of milliseconds since
  the Unix epoch, as an integer, in a single fixed timezone (UTC);
* a calendar date (`YYYY-MM-DD` string) is its day index since the epoch;
* a nullable JS value is an `Option`;
* a wall-clock `start_time`/`end_time` string is a `TimeField`: `null` for an
  absent or empty (JS-falsy) value, `bad` for a non-empty unparsable string
  (which JS turns into an Invalid Date / NaN), `ok m` for a parsed `HH:MM`
  value of `m` minutes after midnight;
* a NaN-propagating JS number is an `Option Int` (`none` = NaN), since every
  comparison with NaN is false and `Math.max(0, NaN) = NaN`;
* fractional minute values (millisecond differences divided by 60000 without
  truncation, as in `AttendanceDataRecreationService.calculateWorkingTime`)
  are rationals.
-/

namespace DutchTrails

abbrev Instant := Int
abbrev Day := Int

def msPerMinute : Int := 60000

def msPerDay : Int := 86400000

/-- Calendar date (UTC day index) of an instant, as computed by
`date.toISOString().split('T')[0]` or SQL `DATE_TRUNC('day', ...)`. -/
def dateOf (t : Instant) : Day := Int.fdiv t msPerDay

/-- Day of week of an epoch day index, 0 = Sunday .. 6 = Saturday
(1970-01-01, day 0, was a Thursday). -/
def weekdayOf (d : Day) : Int := (d + 4) % 7

/-- A `start_time` / `end_time` roster field as the JS code sees it. -/
inductive TimeField
  | null
  | bad
  | ok (m : Nat)
deriving DecidableEq, Repr

/-- JS truthiness of a time string: `null`/`undefined`/`""` are falsy, any
non-empty string (parsable or not) is truthy. -/
def TimeField.truthy : TimeField → Bool
  | TimeField.null => false
  | TimeField.bad => true
  | TimeField.ok _ => true

/-- Semantics of `new Date(dateString + "T" + timeString)` (and of
`setHours(h, m, 0, 0)` on a date's midnight): a valid instant for a parsed
time, an Invalid Date (`none`) otherwise. -/
def combine (d : Day) : TimeField → Option Instant
  | TimeField.ok m => some (d * msPerDay + (m : Int) * msPerMinute)
  | _ => none

/-- One `time_slot` object of a shift-pattern entry. -/
structure TimeSlot where
  start_time : TimeField
  end_time : TimeField
deriving DecidableEq, Repr

/-- One entry of a persisted `shift_pattern` JSON array: per the persisted
representation an entry may carry an explicit `date`, a weekday index `day`
(0-6), a `shift` marker such as `"off"` or `"regular"`, and a `time_slot`. -/
structure ShiftEntry where
  date : Option Day := none
  day : Option Nat := none
  shift : Option String := none
  time_slot : Option TimeSlot := none
deriving DecidableEq, Repr

/-- A roster row, restricted to the fields the calculators and the resolver
read. `grace_period` is optional: the column was added, removed and re-added
across the migrations, so a fetched roster may or may not carry it. -/
structure Roster where
  id : Nat
  employee_id : Nat
  start_date : Day
  end_date : Day
  start_time : TimeField
  end_time : TimeField
  break_duration : Option Int := none
  grace_period : Option Int := none
  early_departure_threshold : Option Int := none
  is_active : Bool := true
  created_at : Int := 0
  shift_pattern : List ShiftEntry := []
deriving DecidableEq, Repr

/-- An attendance record as read by `calculateLateness`. -/
structure Attendance where
  first_check_in_time : Option Instant := none
deriving DecidableEq, Repr

/-- The filter of `getEmployeeRosterForDate`'s query:
`employee_id = employeeId AND is_active = true AND start_date <= date AND
end_date >= date`. -/
def rosterMatches (r : Roster) (employeeId : Nat) (d : Day) : Bool :=
  r.employee_id == employeeId && r.is_active &&
    decide (r.start_date ≤ d) && decide (d ≤ r.end_date)

/-- Semantics of `ORDER BY created_at DESC LIMIT 1` over a list of rows:
the first row carrying the maximal `created_at` (a stable descending sort
keeps the original order among ties). -/
def pickLatest : List Roster → Option Roster
  | [] => none
  | r :: rs =>
    match pickLatest rs with
    | none => some r
    | some b => if b.created_at > r.created_at then some b else some r

/-- `getEmployeeRosterForDate` (src/unnamed/part_010): filter the roster
store for active, date-matching rosters of the employee, order by
`created_at` descending, take the first; `null` when none match or the
query errs. -/
def getEmployeeRosterForDate (rosters : List Roster) (employeeId : Nat)
    (d : Day) : Option Roster :=
  pickLatest (rosters.filter (fun r => rosterMatches r employeeId d))

/-- The default shift object `getShiftForDate` builds from the roster's own
times when no pattern entry matches. -/
def defaultShift (r : Roster) (d : Day) : ShiftEntry :=
  { date := some d, shift := some "regular",
    time_slot := some ⟨r.start_time, r.end_time⟩ }

/-- `getShiftForDate` (src/unnamed/part_010): with an empty or missing
pattern, the default shift; otherwise the first entry whose explicit `date`
field equals the queried date (`shift.date === date`), or the default shift
when none does. Entries keyed only by weekday are never compared. -/
def getShiftForDate (r : Roster) (d : Day) : ShiftEntry :=
  if r.shift_pattern.isEmpty then defaultShift r d
  else
    match r.shift_pattern.find? (fun e => e.date == some d) with
    | some e => e
    | none => defaultShift r d

/-- `calculateRosterBasedLateness` (src/unnamed/part_010): resolve the
roster (0 when none), short-circuit to 0 on an `"off"` shift, take the
shift slot's start time if truthy else the roster's
(`shift.time_slot?.start_time || roster.start_time`), 0 when that is falsy,
else floor the positive millisecond delta to minutes; an unparsable start
time yields an Invalid Date, whose NaN delta fails the `> 0` test. -/
def calculateRosterBasedLateness (rosters : List Roster) (employeeId : Nat)
    (checkInTime : Instant) (d : Day) : Int :=
  match getEmployeeRosterForDate rosters employeeId d with
  | none => 0
  | some roster =>
    let shift := getShiftForDate roster d
    if shift.shift == some "off" then 0
    else
      let rosterStartTime :=
        match shift.time_slot with
        | some slot =>
          if slot.start_time.truthy then slot.start_time else roster.start_time
        | none => roster.start_time
      if !rosterStartTime.truthy then 0
      else
        match combine d rosterStartTime with
        | none => 0
        | some rosterStart =>
          let timeDifference := checkInTime - rosterStart
          if timeDifference > 0 then Int.fdiv timeDifference msPerMinute
          else 0

/-- Result record of `calculateLateness` (src/src/utils/lateCalculation.ts). -/
structure LateCalculationResult where
  isLate : Bool
  lateMinutes : Int
  lateHours : Int
  lateDisplay : String
deriving DecidableEq, Repr

/-- `calculateLateness` (src/src/utils/lateCalculation.ts): default result
on a missing check-in or falsy `start_time`; otherwise compare the check-in
instant with the same calendar date combined with the roster start time; a
positive millisecond difference is floored to minutes (`Math.floor(ms /
60000)`), with no grace period; an Invalid Date start makes the NaN
difference fail `> 0`, giving the default. -/
def calculateLateness (attendance : Attendance) (roster : Roster) :
    LateCalculationResult :=
  let defaultResult : LateCalculationResult := ⟨false, 0, 0, "0h 0m"⟩
  match attendance.first_check_in_time with
  | none => defaultResult
  | some checkInTime =>
    if !roster.start_time.truthy then defaultResult
    else
      match combine (dateOf checkInTime) roster.start_time with
      | none => defaultResult
      | some rosterStartDateTime =>
        let timeDifference := checkInTime - rosterStartDateTime
        if timeDifference > 0 then
          let lateMinutes := Int.fdiv timeDifference msPerMinute
          let lateHours := Int.fdiv lateMinutes 60
          let remainingMinutes := lateMinutes % 60
          ⟨true, lateMinutes, lateHours, s!"{lateHours}h {remainingMinutes}m"⟩
        else defaultResult

/-- `formatLateDuration` (src/src/utils/lateDurationUtils.ts): `"-"` for a
non-positive value; a NaN input fails both the `<= 0` and the `> 0` tests
and is interpolated as `"NaN"`. -/
def formatLateDuration : Option Int → String
  | none => "NaNM"
  | some m =>
    if m ≤ 0 then "-"
    else
      let hours := Int.fdiv m 60
      let remainingMinutes := m % 60
      if hours > 0 then
        s!"{hours}H {padTwo remainingMinutes}M"
      else s!"{remainingMinutes}M"
where
  padTwo (n : Int) : String :=
    let s := toString n
    if s.length < 2 then "0" ++ s else s

/-- Result record of `calculateLateDuration`
(src/src/utils/lateDurationUtils.ts); `lateMinutes` is a NaN-propagating JS
number. -/
structure LateDurationCalculation where
  isLate : Bool
  lateMinutes : Option Int
  gracePeriodUsed : Int
  formattedLateDuration : String
deriving DecidableEq, Repr

/-- `calculateLateDuration` (src/src/utils/lateDurationUtils.ts): splits
`roster.start_time`, rebuilds the roster start on the check-in's date via
`setHours`, truncates the minute difference (`differenceInMinutes`), clamps
with `Math.max(0, ...)`, applies no grace period. A `null` start time makes
`split` throw, so the catch block returns the zero defaults; an unparsable
non-empty start time yields `setHours(NaN, ...)`, an Invalid Date, so
`lateMinutes = Math.max(0, NaN) = NaN` with `isLate = (NaN > 0) = false`. -/
def calculateLateDuration (checkInTime : Instant) (roster : Roster) :
    LateDurationCalculation :=
  match roster.start_time with
  | TimeField.null => ⟨false, some 0, 0, "-"⟩
  | TimeField.bad => ⟨false, none, 0, formatLateDuration none⟩
  | TimeField.ok m =>
    let rosterStart := dateOf checkInTime * msPerDay + (m : Int) * msPerMinute
    let minutesDifference := Int.tdiv (checkInTime - rosterStart) msPerMinute
    let lateMinutes := max 0 minutesDifference
    ⟨lateMinutes > 0, some lateMinutes, 0, formatLateDuration (some lateMinutes)⟩

/-- Result record of `calculateWorkingTime`
(src/src/services/AttendanceDataRecreationService.ts); the millisecond
differences are divided by 60000 without truncation, so the minute values
are rationals. -/
structure WorkingTimeCalculation where
  totalMinutes : ℚ
  breakMinutes : ℚ
  netWorkingMinutes : ℚ
deriving DecidableEq, Repr

/-- Millisecond difference `a - b` as exact minutes. -/
def minutesQ (a b : Instant) : ℚ := ((a - b : Int) : ℚ) / 60000

/-- One `if (x && y) { ... Math.max(0, (end - start) / 60000) }` block of
`calculateWorkingTime`: the clamped minute span between two optional
instants, 0 when either is absent. -/
def spanMinutes (startT endT : Option Instant) : ℚ :=
  match startT, endT with
  | some s, some e => max 0 (minutesQ e s)
  | _, _ => 0

/-- `calculateWorkingTime`
(src/src/services/AttendanceDataRecreationService.ts): each closed session
contributes its clamped duration (a session with a missing endpoint
contributes nothing — this function never consults a clock), the break is
the clamped gap between first check-out and second check-in when both
exist, and `netWorkingMinutes = totalMinutes - breakMinutes`. -/
def calculateWorkingTime (firstCheckIn firstCheckOut secondCheckIn
    secondCheckOut : Option Instant) : WorkingTimeCalculation :=
  let totalMinutes := spanMinutes firstCheckIn firstCheckOut +
    spanMinutes secondCheckIn secondCheckOut
  let breakMinutes := spanMinutes firstCheckOut secondCheckIn
  ⟨totalMinutes, breakMinutes, totalMinutes - breakMinutes⟩

/-- `differenceInMinutes` of date-fns: millisecond difference divided by
60000 and truncated toward zero. -/
def diffMin (a b : Instant) : Int := Int.tdiv (a - b) msPerMinute

/-- An attendance row as processed by `fetchPresentEmployees`
(src/src/components/PresentEmployeeReport.tsx), restricted to the fields
its metric computations read. -/
structure PresentRecord where
  first_check_in_time : Option Instant := none
  first_check_out_time : Option Instant := none
  second_check_in_time : Option Instant := none
  second_check_out_time : Option Instant := none
  minutes_late : Option Int := none
  break_duration_minutes : Option Int := none
  working_duration_minutes : Option Int := none
deriving DecidableEq, Repr

/-- The late-minutes field `fetchPresentEmployees` reports: the stored
value when truthy and positive, else 0, then `Math.max(0, ...)`. -/
def presentLateMinutes (r : PresentRecord) : Int :=
  let lateMinutes : Int :=
    match r.minutes_late with
    | some k => if k ≠ 0 ∧ k > 0 then k else 0
    | none => 0
  max 0 lateMinutes

/-- The break-minutes computation of `fetchPresentEmployees`: the stored
`break_duration_minutes` when truthy, else the raw (unclamped)
`differenceInMinutes(second_check_in, first_check_out)` when both
timestamps exist, else 0. -/
def presentBreakMinutes (r : PresentRecord) : Int :=
  let breakMinutes : Int :=
    match r.break_duration_minutes with
    | some k => k
    | none => 0
  if breakMinutes ≠ 0 then breakMinutes
  else
    match r.first_check_out_time, r.second_check_in_time with
    | some firstCheckOut, some secondCheckIn =>
      diffMin secondCheckIn firstCheckOut
    | _, _ => breakMinutes

/-- The working-minutes computation of `fetchPresentEmployees`: the stored
`working_duration_minutes` when truthy; otherwise, given a first check-in,
the sum of the two session durations, an open session measured against
`new Date()` — the wall clock read at the moment of the call, passed here
explicitly as `now`. -/
def presentWorkingMinutes (r : PresentRecord) (now : Instant) : Int :=
  let workingMinutes : Int :=
    match r.working_duration_minutes with
    | some k => k
    | none => 0
  if workingMinutes ≠ 0 then workingMinutes
  else
    match r.first_check_in_time with
    | none => workingMinutes
    | some checkInTime =>
      let sessionOne : Int :=
        match r.first_check_out_time with
        | some firstCheckOut => diffMin firstCheckOut checkInTime
        | none => diffMin now checkInTime
      let sessionTwo : Int :=
        match r.second_check_in_time with
        | none => 0
        | some secondCheckIn =>
          match r.second_check_out_time with
          | some secondCheckOut => diffMin secondCheckOut secondCheckIn
          | none => diffMin now secondCheckIn
      sessionOne + sessionTwo

/-- The `early_departure_minutes` column of the `attendance_display` view
(src/unnamed/part_001): `GREATEST(0, minutes(dayStart(first_check_out) +
end_time - first_check_out) - COALESCE(early_departure_threshold, 0))` when
a first check-out and a parsable end time exist, else 0 (SQL divides the
epoch difference exactly, without truncation). -/
def sqlEarlyDepartureMinutes (firstCheckOut : Option Instant)
    (endTime : TimeField) (threshold : Option Int) : ℚ :=
  match firstCheckOut, endTime with
  | some checkOut, TimeField.ok m =>
    max 0 (minutesQ (dateOf checkOut * msPerDay + (m : Int) * msPerMinute)
      checkOut - ((threshold.getD 0 : Int) : ℚ))
  | _, _ => 0

/-- An attendance insert payload as described by
ATTENDANCE_MARKING_FIX_APPLIED.md. -/
structure AttendanceInsert where
  employee_id : Nat
  roster_id : Nat
  date : Day
  first_check_in_time : Instant
deriving DecidableEq, Repr

/-- Modelled from the spec: the attendance write path (`recordAttendance`,
`singleScanAttendance`, `createFirstCheckIn`) is not present under src/src;
per src/ATTENDANCE_MARKING_FIX_APPLIED.md (Roster Retrieval Logic; Error
Handling) each attendance insert first looks up the employee's active
roster, throws a descriptive error when none is found, and otherwise
includes `roster_id` (a NOT NULL column) in the inserted record. -/
def createFirstCheckIn (rosters : List Roster) (employeeId : Nat) (d : Day)
    (checkInTime : Instant) : Except String AttendanceInsert :=
  match getEmployeeRosterForDate rosters employeeId d with
  | none => Except.error "No active roster found for employee"
  | some roster => Except.ok ⟨employeeId, roster.id, d, checkInTime⟩

/-- An attendance row as read by `generateAttendanceInsights`
(src/src/services/AttendanceDataRecreationService.ts); `employee_idOpt` is
`record.employees?.id`, which the optional chaining may leave undefined. -/
structure InsightRecord where
  employee_idOpt : Option Nat := none
  date : Day := 0
  minutes_late : Option Int := none
  working_duration_minutes : Option Int := none
deriving DecidableEq, Repr

/-- The on-time filter of `generateAttendanceInsights`:
`!r.minutes_late || r.minutes_late === 0`, true for a null, missing or zero
`minutes_late`. -/
def isOnTimeRecord (m : Option Int) : Bool :=
  match m with
  | none => true
  | some k => k == 0

/-- The late filter of `generateAttendanceInsights`:
`r.minutes_late && r.minutes_late > 0`, true for a truthy positive
`minutes_late`. -/
def isLateRecord (m : Option Int) : Bool :=
  match m with
  | none => false
  | some k => decide (0 < k)

/-- The partial sums one department partition of
`generateAttendanceInsights` accumulates: the distinct-employee count (JS
`new Set(records.map(r => r.employees?.id)).size`), the record count, the
on-time record count, and the late-minute and working-minute sums (missing
values coalesced to 0). -/
structure DeptSums where
  totalEmployees : Nat
  totalRecords : Nat
  onTimeRecords : Nat
  totalLateMinutes : Int
  totalWorkingMinutes : Int
deriving DecidableEq, Repr

/-- The partial sums of one department partition, read off the filters and
reducers of `generateAttendanceInsights`. -/
def deptSumsOf (records : List InsightRecord) : DeptSums :=
  { totalEmployees := (records.map (·.employee_idOpt)).dedup.length
    totalRecords := records.length
    onTimeRecords :=
      (records.filter (fun r => isOnTimeRecord r.minutes_late)).length
    totalLateMinutes := (records.map (fun r => r.minutes_late.getD 0)).sum
    totalWorkingMinutes :=
      (records.map (fun r => r.working_duration_minutes.getD 0)).sum }

/-- Componentwise merge of two partitions' partial sums. -/
def mergeSums (a b : DeptSums) : DeptSums :=
  { totalEmployees := a.totalEmployees + b.totalEmployees
    totalRecords := a.totalRecords + b.totalRecords
    onTimeRecords := a.onTimeRecords + b.onTimeRecords
    totalLateMinutes := a.totalLateMinutes + b.totalLateMinutes
    totalWorkingMinutes := a.totalWorkingMinutes + b.totalWorkingMinutes }

/-- The derived department statistics of `generateAttendanceInsights`
(averages and rates computed from the partial sums; rational division,
with Lean's 0-denominator convention standing in for JS NaN/Infinity on an
empty partition). -/
structure DeptStats where
  totalEmployees : Nat
  averageAttendance : ℚ
  averageLateMinutes : ℚ
  complianceRate : ℚ
deriving DecidableEq, Repr

/-- Derivation of the reported statistics from a partition's partial sums,
as in `generateAttendanceInsights`. -/
def deriveStats (s : DeptSums) : DeptStats :=
  { totalEmployees := s.totalEmployees
    averageAttendance := ((s.totalRecords : ℚ) / (s.totalEmployees : ℚ)) * 100
    averageLateMinutes := (s.totalLateMinutes : ℚ) / (s.totalRecords : ℚ)
    complianceRate := ((s.onTimeRecords : ℚ) / (s.totalRecords : ℚ)) * 100 }

/-- The department statistics `generateAttendanceInsights` reports for one
partition. -/
def deptStatsOf (records : List InsightRecord) : DeptStats :=
  deriveStats (deptSumsOf records)

/-- The per-date `onTimeCount` of the trends section of
`generateAttendanceInsights`. -/
def onTimeCount (records : List InsightRecord) : Nat :=
  (records.filter (fun r => isOnTimeRecord r.minutes_late)).length

/-- The per-date `lateCount` of the trends section of
`generateAttendanceInsights`. -/
def lateCount (records : List InsightRecord) : Nat :=
  (records.filter (fun r => isLateRecord r.minutes_late)).length

/-- Two overlapping active rosters of employee 1, distinguished by
`created_at`. -/
def c6RosterOld : Roster :=
  { id := 4, employee_id := 1, start_date := 0, end_date := 10,
    start_time := TimeField.ok 540, end_time := TimeField.ok 1080,
    created_at := 100 }

/-- The more recently created of the two overlapping rosters. -/
def c6RosterNew : Roster :=
  { id := 5, employee_id := 1, start_date := 0, end_date := 10,
    start_time := TimeField.ok 480, end_time := TimeField.ok 1020,
    created_at := 200 }

/-- A roster whose shift pattern marks day 3 (a Sunday) off by explicit
date. -/
def c5RosterOffByDate : Roster :=
  { id := 7, employee_id := 1, start_date := 0, end_date := 10,
    start_time := TimeField.ok 480, end_time := TimeField.ok 1020,
    created_at := 0,
    shift_pattern := [{ date := some 3, shift := some "off" }] }

/-- A roster whose shift pattern marks Sunday off by weekday index only. -/
def c5RosterOffByWeekday : Roster :=
  { id := 7, employee_id := 1, start_date := 0, end_date := 10,
    start_time := TimeField.ok 480, end_time := TimeField.ok 1020,
    created_at := 0,
    shift_pattern := [{ day := some 0, shift := some "off" }] }

/-- A roster carrying an explicit 15-minute `grace_period`, start 08:00. -/
def c1Roster : Roster :=
  { id := 1, employee_id := 1, start_date := 0, end_date := 0,
    start_time := TimeField.ok 480, end_time := TimeField.ok 1020,
    grace_period := some 15 }

/-- A roster whose `start_time` is a non-empty unparsable string. -/
def c7RosterBad : Roster :=
  { id := 2, employee_id := 1, start_date := 0, end_date := 0,
    start_time := TimeField.bad, end_time := TimeField.bad }

/-- A roster whose `start_time` is null. -/
def c7RosterNull : Roster :=
  { id := 3, employee_id := 1, start_date := 0, end_date := 0,
    start_time := TimeField.null, end_time := TimeField.null }

/-- An attendance row with both sessions closed (08:00-12:00, 13:00-17:00)
and no stored derived fields. -/
def c8ClosedRecord : PresentRecord :=
  { first_check_in_time := some (480 * msPerMinute),
    first_check_out_time := some (720 * msPerMinute),
    second_check_in_time := some (780 * msPerMinute),
    second_check_out_time := some (1020 * msPerMinute) }

/-- An attendance row with an open first session (checked in 08:00, never
out) and no stored derived fields. -/
def c8OpenRecord : PresentRecord :=
  { first_check_in_time := some (480 * msPerMinute) }

/-- The spec's worked scenario: 08:00 in, 12:00 out, 13:00 in, 17:00 out,
nothing stored. -/
def c2ScenarioRecord : PresentRecord :=
  { first_check_in_time := some (480 * msPerMinute),
    first_check_out_time := some (720 * msPerMinute),
    second_check_in_time := some (780 * msPerMinute),
    second_check_out_time := some (1020 * msPerMinute) }

theorem pickLatest_ne_none (a : Roster) (t : List Roster) :
    pickLatest (a :: t) ≠ none := by
  simp only [pickLatest]
  cases pickLatest t with
  | none => simp
  | some b => by_cases hgt : b.created_at > a.created_at <;> simp [hgt]

theorem pickLatest_mem {l : List Roster} : ∀ {r : Roster},
    pickLatest l = some r → r ∈ l := by
  induction l with
  | nil => intro r h; simp [pickLatest] at h
  | cons a t ih =>
    intro r h
    simp only [pickLatest] at h
    cases hpt : pickLatest t with
    | none =>
      simp only [hpt] at h
      obtain rfl : a = r := by injection h
      exact List.mem_cons_self a t
    | some c =>
      simp only [hpt] at h
      by_cases hgt : c.created_at > a.created_at
      · rw [if_pos hgt] at h
        obtain rfl : c = r := by injection h
        exact List.mem_cons_of_mem a (ih hpt)
      · rw [if_neg hgt] at h
        obtain rfl : a = r := by injection h
        exact List.mem_cons_self a t

theorem pickLatest_le {l : List Roster} : ∀ {r : Roster},
    pickLatest l = some r → ∀ b ∈ l, b.created_at ≤ r.created_at := by
  induction l with
  | nil => intro r h; simp [pickLatest] at h
  | cons a t ih =>
    intro r h b hb
    simp only [pickLatest] at h
    cases hpt : pickLatest t with
    | none =>
      simp only [hpt] at h
      obtain rfl : a = r := by injection h
      have ht : t = [] := by
        cases t with
        | nil => rfl
        | cons x xs => exact absurd hpt (pickLatest_ne_none x xs)
      subst ht
      rcases List.mem_singleton.mp hb with rfl
      exact le_refl _
    | some c =>
      simp only [hpt] at h
      by_cases hgt : c.created_at > a.created_at
      · rw [if_pos hgt] at h
        obtain rfl : c = r := by injection h
        rcases List.mem_cons.mp hb with rfl | hbt
        · exact le_of_lt hgt
        · exact ih hpt b hbt
      · rw [if_neg hgt] at h
        obtain rfl : a = r := by injection h
        rcases List.mem_cons.mp hb with rfl | hbt
        · exact le_refl _
        · exact le_trans (ih hpt b hbt) (not_lt.mp hgt)

/-- Claim C6: whenever roster resolution returns a roster, that roster is a
stored, active, date-matching roster of the employee, and its `created_at`
is at least that of every other stored roster that is simultaneously active
and date-matching — in particular, with more than one match, the one with
the latest `created_at` is selected. -/
theorem c6_resolution_selects_latest_created_at (rosters : List Roster)
    (e : Nat) (d : Day) (r r' : Roster)
    (hres : getEmployeeRosterForDate rosters e d = some r)
    (hmem : r' ∈ rosters) (hmatch : rosterMatches r' e d = true) :
    r ∈ rosters ∧ rosterMatches r e d = true ∧
      r'.created_at ≤ r.created_at := by
  have hr : r ∈ rosters.filter (fun x => rosterMatches x e d) :=
    pickLatest_mem hres
  have hr' : r' ∈ rosters.filter (fun x => rosterMatches x e d) :=
    List.mem_filter.mpr ⟨hmem, hmatch⟩
  rcases List.mem_filter.mp hr with ⟨hrm, hrmatch⟩
  exact ⟨hrm, hrmatch, pickLatest_le hres r' hr'⟩

theorem c6_witness :
    c6RosterNew ∈ [c6RosterOld, c6RosterNew] ∧
    rosterMatches c6RosterNew 1 3 = true ∧
    c6RosterOld.created_at ≤ c6RosterNew.created_at :=
  c6_resolution_selects_latest_created_at [c6RosterOld, c6RosterNew] 1 3
    c6RosterNew c6RosterOld (by decide) (by decide) (by decide)

/-- Claim C4 (amended): with zero matching active rosters, resolution
returns `null` (not an exception), the lateness computation falls back to
0 — but the attendance write path of ATTENDANCE_MARKING_FIX_APPLIED.md
requires a resolvable roster: it raises a descriptive error and does not
write the record. -/
theorem c4_missing_roster_fallback (rosters : List Roster) (e : Nat)
    (d : Day) (t : Instant)
    (h : ∀ r ∈ rosters, rosterMatches r e d = false) :
    getEmployeeRosterForDate rosters e d = none ∧
    calculateRosterBasedLateness rosters e t d = 0 ∧
    createFirstCheckIn rosters e d t =
      Except.error "No active roster found for employee" := by
  have hfil : rosters.filter (fun x => rosterMatches x e d) = [] := by
    rw [List.filter_eq_nil_iff]
    intro a ha
    simp [h a ha]
  have hres : getEmployeeRosterForDate rosters e d = none := by
    simp [getEmployeeRosterForDate, hfil, pickLatest]
  refine ⟨hres, ?_, ?_⟩
  · simp [calculateRosterBasedLateness, hres]
  · simp [createFirstCheckIn, hres]

theorem c4_witness :
    getEmployeeRosterForDate [] 1 0 = none ∧
    calculateRosterBasedLateness [] 1 (540 * msPerMinute) 0 = 0 ∧
    createFirstCheckIn [] 1 0 (540 * msPerMinute) =
      Except.error "No active roster found for employee" :=
  c4_missing_roster_fallback [] 1 0 (540 * msPerMinute) (by simp)

theorem c4_counterexample :
    getEmployeeRosterForDate [] 1 0 = none ∧
    calculateRosterBasedLateness [] 1 (540 * msPerMinute) 0 = 0 ∧
    ¬ ∃ ins, createFirstCheckIn [] 1 0 (540 * msPerMinute) =
      Except.ok ins := by
  refine ⟨rfl, rfl, ?_⟩
  rintro ⟨ins, h⟩
  simp [createFirstCheckIn, getEmployeeRosterForDate, pickLatest] at h

/-- Claim C5 (amended): when the shift entry resolved for the check-in's
date — matched by explicit date only, since `getShiftForDate` compares
nothing but the entry's `date` field — marks the day `"off"`, the lateness
computation returns 0 regardless of the check-in time. Weekday-keyed
entries never match (see the counterexample). -/
theorem c5_off_day_short_circuits (rosters : List Roster) (e : Nat)
    (t : Instant) (d : Day) (r : Roster)
    (hres : getEmployeeRosterForDate rosters e d = some r)
    (hoff : (getShiftForDate r d).shift = some "off") :
    calculateRosterBasedLateness rosters e t d = 0 := by
  simp [calculateRosterBasedLateness, hres, hoff]

theorem c5_witness :
    calculateRosterBasedLateness [c5RosterOffByDate]
      1 (3 * msPerDay + 600 * msPerMinute) 3 = 0 :=
  c5_off_day_short_circuits [c5RosterOffByDate]
    1 (3 * msPerDay + 600 * msPerMinute) 3 c5RosterOffByDate
    (by decide) (by decide)

theorem c5_counterexample :
    weekdayOf 3 = 0 ∧
    (c5RosterOffByWeekday.shift_pattern.map (·.shift)) = [some "off"] ∧
    calculateRosterBasedLateness [c5RosterOffByWeekday]
      1 (3 * msPerDay + 600 * msPerMinute) 3 = 120 := by
  decide

theorem fdiv_msPerMinute_nonpos {a : Int} (h : a ≤ 0) :
    Int.fdiv a msPerMinute ≤ 0 := by
  have h1 : Int.fdiv a msPerMinute = a / msPerMinute :=
    Int.fdiv_eq_ediv a (by norm_num [msPerMinute])
  have h2 : a / msPerMinute ≤ 0 / msPerMinute :=
    Int.ediv_le_ediv (by norm_num [msPerMinute]) h
  rw [h1]
  exact le_trans h2 (by simp)

theorem tdiv_msPerMinute_nonpos {a : Int} (h : a ≤ 0) :
    Int.tdiv a msPerMinute ≤ 0 := by
  have h1 : (-a).tdiv msPerMinute = -(a.tdiv msPerMinute) :=
    Int.neg_tdiv a msPerMinute
  have h2 : 0 ≤ (-a).tdiv msPerMinute :=
    Int.tdiv_nonneg (by omega) (by norm_num [msPerMinute])
  omega

/-- Claim C1 (amended): both lateness calculators ignore `grace_period`
entirely. With a present check-in and a parsable roster start time,
`calculateLateness` returns `lateMinutes = max(0, floor(minutes(checkIn -
rosterStartInstant)))` and classifies late exactly when the raw delta is
positive (so a sub-minute delta sets `isLate` with `lateMinutes = 0`);
`calculateLateDuration` returns the truncated clamped delta and classifies
late exactly when that returned value is positive. -/
theorem c1_lateness_calculators_ignore_grace (a : Attendance) (r : Roster)
    (t : Instant) (m : Nat)
    (hc : a.first_check_in_time = some t)
    (hs : r.start_time = TimeField.ok m) :
    (calculateLateness a r).lateMinutes =
      max 0 (Int.fdiv (t - (dateOf t * msPerDay + (m : Int) * msPerMinute))
        msPerMinute) ∧
    (calculateLateness a r).isLate =
      decide (0 < t - (dateOf t * msPerDay + (m : Int) * msPerMinute)) ∧
    (calculateLateDuration t r).lateMinutes =
      some (max 0 (Int.tdiv
        (t - (dateOf t * msPerDay + (m : Int) * msPerMinute)) msPerMinute)) ∧
    (calculateLateDuration t r).isLate =
      decide (0 < max 0 (Int.tdiv
        (t - (dateOf t * msPerDay + (m : Int) * msPerMinute)) msPerMinute)) := by
  have hld : calculateLateDuration t r =
      ⟨decide (0 < max 0 (Int.tdiv
          (t - (dateOf t * msPerDay + (m : Int) * msPerMinute)) msPerMinute)),
        some (max 0 (Int.tdiv
          (t - (dateOf t * msPerDay + (m : Int) * msPerMinute)) msPerMinute)),
        0, formatLateDuration (some (max 0 (Int.tdiv
          (t - (dateOf t * msPerDay + (m : Int) * msPerMinute)) msPerMinute)))⟩ := by
    simp [calculateLateDuration, hs]
  by_cases hpos : 0 < t - (dateOf t * msPerDay + (m : Int) * msPerMinute)
  · have hfd : 0 ≤ Int.fdiv
        (t - (dateOf t * msPerDay + (m : Int) * msPerMinute)) msPerMinute :=
      Int.fdiv_nonneg (le_of_lt hpos) (by norm_num [msPerMinute])
    refine ⟨?_, ?_, ?_, ?_⟩ <;>
      simp [calculateLateness, hc, hs, combine, TimeField.truthy, hpos,
        max_eq_right hfd, hld]
  · have hle : t - (dateOf t * msPerDay + (m : Int) * msPerMinute) ≤ 0 :=
      not_lt.mp hpos
    have hfd : Int.fdiv
        (t - (dateOf t * msPerDay + (m : Int) * msPerMinute)) msPerMinute ≤ 0 :=
      fdiv_msPerMinute_nonpos hle
    refine ⟨?_, ?_, ?_, ?_⟩ <;>
      simp [calculateLateness, hc, hs, combine, TimeField.truthy, hpos,
        max_eq_left hfd, hld]

theorem c1_witness :
    (calculateLateness ⟨some (500 * msPerMinute)⟩ c1Roster).lateMinutes =
      max 0 (Int.fdiv (500 * msPerMinute -
        (dateOf (500 * msPerMinute) * msPerDay + (480 : Int) * msPerMinute))
        msPerMinute) ∧
    (calculateLateness ⟨some (500 * msPerMinute)⟩ c1Roster).isLate =
      decide (0 < 500 * msPerMinute -
        (dateOf (500 * msPerMinute) * msPerDay + (480 : Int) * msPerMinute)) ∧
    (calculateLateDuration (500 * msPerMinute) c1Roster).lateMinutes =
      some (max 0 (Int.tdiv (500 * msPerMinute -
        (dateOf (500 * msPerMinute) * msPerDay + (480 : Int) * msPerMinute))
        msPerMinute)) ∧
    (calculateLateDuration (500 * msPerMinute) c1Roster).isLate =
      decide (0 < max 0 (Int.tdiv (500 * msPerMinute -
        (dateOf (500 * msPerMinute) * msPerDay + (480 : Int) * msPerMinute))
        msPerMinute)) :=
  c1_lateness_calculators_ignore_grace ⟨some (500 * msPerMinute)⟩ c1Roster
    (500 * msPerMinute) 480 rfl rfl

theorem c1_counterexample :
    c1Roster.grace_period = some 15 ∧
    (calculateLateness ⟨some (500 * msPerMinute)⟩ c1Roster).lateMinutes = 20 ∧
    ¬ ((calculateLateness ⟨some (500 * msPerMinute)⟩ c1Roster).lateMinutes =
      max 0 (Int.fdiv (500 * msPerMinute -
          (dateOf (500 * msPerMinute) * msPerDay + (480 : Int) * msPerMinute))
          msPerMinute - c1Roster.grace_period.getD 0)) ∧
    ¬ ((calculateLateDuration (500 * msPerMinute) c1Roster).lateMinutes =
      some (max 0 (Int.tdiv (500 * msPerMinute -
          (dateOf (500 * msPerMinute) * msPerDay + (480 : Int) * msPerMinute))
          msPerMinute - c1Roster.grace_period.getD 0))) := by
  decide

/-- Claim C7 (amended): no parse failure throws. `calculateLateness` and
`calculateRosterBasedLateness` return the zero-lateness result on an
unparsable start time; `calculateLateDuration` classifies the employee as
not late but propagates NaN (not 0) as `lateMinutes` for an unparsable
non-empty `start_time`, returning `lateMinutes = 0` only when evaluation
actually throws, as for a null `start_time`. -/
theorem c7_parse_failure_policy :
    (∀ a r, r.start_time = TimeField.bad →
      calculateLateness a r = ⟨false, 0, 0, "0h 0m"⟩) ∧
    (∀ rosters e t d r, getEmployeeRosterForDate rosters e d = some r →
      r.shift_pattern = [] → r.start_time = TimeField.bad →
      calculateRosterBasedLateness rosters e t d = 0) ∧
    (∀ t r, r.start_time = TimeField.bad →
      (calculateLateDuration t r).isLate = false ∧
      (calculateLateDuration t r).lateMinutes = none) ∧
    (∀ t r, r.start_time = TimeField.null →
      (calculateLateDuration t r).isLate = false ∧
      (calculateLateDuration t r).lateMinutes = some 0) := by
  refine ⟨?_, ?_, ?_, ?_⟩
  · intro a r h
    cases hc : a.first_check_in_time <;>
      simp [calculateLateness, h, hc, combine, TimeField.truthy]
  · intro rosters e t d r hres hpat hbad
    simp [calculateRosterBasedLateness, hres, getShiftForDate, hpat,
      defaultShift, hbad, combine, TimeField.truthy]
  · intro t r h
    simp [calculateLateDuration, h]
  · intro t r h
    simp [calculateLateDuration, h]

theorem c7_witness :
    calculateLateness ⟨some (500 * msPerMinute)⟩ c7RosterBad =
      ⟨false, 0, 0, "0h 0m"⟩ ∧
    calculateRosterBasedLateness [c7RosterBad] 1 (500 * msPerMinute) 0 = 0 ∧
    ((calculateLateDuration (500 * msPerMinute) c7RosterBad).isLate = false ∧
      (calculateLateDuration (500 * msPerMinute) c7RosterBad).lateMinutes
        = none) ∧
    ((calculateLateDuration (500 * msPerMinute) c7RosterNull).isLate = false ∧
      (calculateLateDuration (500 * msPerMinute) c7RosterNull).lateMinutes
        = some 0) :=
  ⟨c7_parse_failure_policy.1 ⟨some (500 * msPerMinute)⟩ c7RosterBad rfl,
   c7_parse_failure_policy.2.1 [c7RosterBad] 1 (500 * msPerMinute) 0
     c7RosterBad (by decide) rfl rfl,
   c7_parse_failure_policy.2.2.1 (500 * msPerMinute) c7RosterBad rfl,
   c7_parse_failure_policy.2.2.2 (500 * msPerMinute) c7RosterNull rfl⟩

theorem c7_counterexample :
    (calculateLateDuration (500 * msPerMinute) c7RosterBad).isLate = false ∧
    (calculateLateDuration (500 * msPerMinute) c7RosterBad).lateMinutes
      ≠ some 0 := by
  decide

/-- Claim C8 (amended): `calculateWorkingTime` consults no clock at all,
but the present-employee report's working-duration computation reads
`new Date()` internally at the moment of each call; its result is
invariant across invocation instants only when no started session is left
open (see the counterexample for an open session). -/
theorem c8_closed_record_clock_independent (r : PresentRecord)
    (now₁ now₂ : Instant)
    (h1 : r.first_check_in_time = none ∨ r.first_check_out_time ≠ none)
    (h2 : r.second_check_in_time ≠ none → r.second_check_out_time ≠ none) :
    presentWorkingMinutes r now₁ = presentWorkingMinutes r now₂ := by
  rcases hfci : r.first_check_in_time with _ | fci
  · simp [presentWorkingMinutes, hfci]
  · rcases h1 with h1 | h1
    · rw [hfci] at h1; exact absurd h1 (by simp)
    · rcases hfco : r.first_check_out_time with _ | fco
      · exact absurd hfco h1
      · rcases hsci : r.second_check_in_time with _ | sci
        · simp [presentWorkingMinutes, hfci, hfco, hsci]
        · rcases hsco : r.second_check_out_time with _ | sco
          · exact absurd hsco (h2 (by simp [hsci]))
          · simp [presentWorkingMinutes, hfci, hfco, hsci, hsco]

theorem c8_witness :
    presentWorkingMinutes c8ClosedRecord 0 =
      presentWorkingMinutes c8ClosedRecord (1000 * msPerMinute) :=
  c8_closed_record_clock_independent c8ClosedRecord 0 (1000 * msPerMinute)
    (Or.inr (by decide)) (fun _ => by decide)

theorem c8_counterexample :
    presentWorkingMinutes c8OpenRecord (540 * msPerMinute) = 60 ∧
    presentWorkingMinutes c8OpenRecord (600 * msPerMinute) = 120 ∧
    presentWorkingMinutes c8OpenRecord (540 * msPerMinute) ≠
      presentWorkingMinutes c8OpenRecord (600 * msPerMinute) := by
  decide

theorem minutesQ_nonneg {a b : Instant} (h : b ≤ a) : 0 ≤ minutesQ a b := by
  unfold minutesQ
  apply div_nonneg _ (by norm_num)
  exact_mod_cast sub_nonneg.mpr h

theorem minutesQ_nonpos {a b : Instant} (h : a ≤ b) : minutesQ a b ≤ 0 := by
  unfold minutesQ
  rw [div_nonpos_iff]
  exact Or.inr ⟨by exact_mod_cast sub_nonpos.mpr h, by norm_num⟩

/-- Claim C2: the working-time calculator's break is the gap between first
check-out and second check-in when both exist and the latter is greater
(else 0); the worked minutes are the sum of the two session durations, an
open session measured against the snapshot now; and the 08:00/12:00/13:00/
17:00 scenario yields breakMinutes = 60 and workedMinutes = 480. -/
theorem c2_working_time_calculator :
    (∀ fci sco breakStart breakEnd,
      (calculateWorkingTime fci (some breakStart) (some breakEnd)
        sco).breakMinutes =
        if breakStart < breakEnd then minutesQ breakEnd breakStart else 0) ∧
    (∀ fci fco sci sco, fco = none ∨ sci = none →
      (calculateWorkingTime fci fco sci sco).breakMinutes = 0) ∧
    (∀ r now fci fco sci sco,
      r.working_duration_minutes = none → r.first_check_in_time = some fci →
      r.first_check_out_time = some fco → r.second_check_in_time = some sci →
      r.second_check_out_time = some sco →
      presentWorkingMinutes r now = diffMin fco fci + diffMin sco sci) ∧
    (∀ r now fci,
      r.working_duration_minutes = none → r.first_check_in_time = some fci →
      r.first_check_out_time = none → r.second_check_in_time = none →
      presentWorkingMinutes r now = diffMin now fci) ∧
    ((calculateWorkingTime (some (480 * msPerMinute))
        (some (720 * msPerMinute)) (some (780 * msPerMinute))
        (some (1020 * msPerMinute))).breakMinutes = 60 ∧
      (calculateWorkingTime (some (480 * msPerMinute))
        (some (720 * msPerMinute)) (some (780 * msPerMinute))
        (some (1020 * msPerMinute))).totalMinutes = 480) ∧
    (∀ now, presentWorkingMinutes c2ScenarioRecord now = 480) := by
  have h3 : ∀ (r : PresentRecord) (now fci fco sci sco : Instant),
      r.working_duration_minutes = none → r.first_check_in_time = some fci →
      r.first_check_out_time = some fco → r.second_check_in_time = some sci →
      r.second_check_out_time = some sco →
      presentWorkingMinutes r now = diffMin fco fci + diffMin sco sci := by
    intro r now fci fco sci sco hw hfci hfco hsci hsco
    simp [presentWorkingMinutes, hw, hfci, hfco, hsci, hsco]
  refine ⟨?_, ?_, h3, ?_, ?_, ?_⟩
  · intro fci sco breakStart breakEnd
    have hbm : (calculateWorkingTime fci (some breakStart) (some breakEnd)
        sco).breakMinutes = max 0 (minutesQ breakEnd breakStart) := by
      simp [calculateWorkingTime, spanMinutes]
    rw [hbm]
    rcases lt_or_le breakStart breakEnd with h | h
    · rw [if_pos h]
      exact max_eq_right (minutesQ_nonneg (le_of_lt h))
    · rw [if_neg (not_lt.mpr h)]
      exact max_eq_left (minutesQ_nonpos h)
  · intro fci fco sci sco h
    rcases h with rfl | rfl
    · cases sci <;> simp [calculateWorkingTime, spanMinutes]
    · cases fco <;> simp [calculateWorkingTime, spanMinutes]
  · intro r now fci hw hfci hfco hsci
    simp [presentWorkingMinutes, hw, hfci, hfco, hsci]
  · constructor <;>
      norm_num [calculateWorkingTime, spanMinutes, minutesQ, msPerMinute]
  · intro now
    rw [h3 c2ScenarioRecord now (480 * msPerMinute) (720 * msPerMinute)
      (780 * msPerMinute) (1020 * msPerMinute) rfl rfl rfl rfl rfl]
    decide

theorem c2_witness :
    ((calculateWorkingTime (some 0) (some (720 * msPerMinute))
        (some (780 * msPerMinute)) none).breakMinutes =
      if (720 * msPerMinute : Int) < 780 * msPerMinute then
        minutesQ (780 * msPerMinute) (720 * msPerMinute) else 0) ∧
    (calculateWorkingTime (some 0) none none none).breakMinutes = 0 ∧
    presentWorkingMinutes c2ScenarioRecord 0 =
      diffMin (720 * msPerMinute) (480 * msPerMinute) +
        diffMin (1020 * msPerMinute) (780 * msPerMinute) ∧
    presentWorkingMinutes
      { first_check_in_time := some 0 : PresentRecord }
      (60 * msPerMinute) = diffMin (60 * msPerMinute) 0 ∧
    presentWorkingMinutes c2ScenarioRecord 5 = 480 :=
  ⟨c2_working_time_calculator.1 (some 0) none (720 * msPerMinute)
      (780 * msPerMinute),
   c2_working_time_calculator.2.1 (some 0) none none none (Or.inl rfl),
   c2_working_time_calculator.2.2.1 c2ScenarioRecord 0 (480 * msPerMinute)
     (720 * msPerMinute) (780 * msPerMinute) (1020 * msPerMinute)
     rfl rfl rfl rfl rfl,
   c2_working_time_calculator.2.2.2.1
     { first_check_in_time := some 0 } (60 * msPerMinute) 0 rfl rfl rfl rfl,
   c2_working_time_calculator.2.2.2.2.2 5⟩

/-- Claim C3: for every combination of present and absent timestamps, in
any order, the derived metrics are non-negative — the worked and break
minutes of `calculateWorkingTime`, the late minutes of every lateness
calculator (whenever a numeric value, rather than NaN, is produced), and
the SQL view's early-departure minutes all clamp negative intermediate
differences to 0. -/
theorem c3_derived_metrics_nonneg :
    (∀ fci fco sci sco,
      0 ≤ (calculateWorkingTime fci fco sci sco).totalMinutes ∧
      0 ≤ (calculateWorkingTime fci fco sci sco).breakMinutes) ∧
    (∀ t r k, (calculateLateDuration t r).lateMinutes = some k → 0 ≤ k) ∧
    (∀ a r, 0 ≤ (calculateLateness a r).lateMinutes) ∧
    (∀ rosters e t d, 0 ≤ calculateRosterBasedLateness rosters e t d) ∧
    (∀ fco et th, 0 ≤ sqlEarlyDepartureMinutes fco et th) := by
  refine ⟨?_, ?_, ?_, ?_, ?_⟩
  · intro fci fco sci sco
    have hspan : ∀ a b, 0 ≤ spanMinutes a b := by
      intro a b
      cases a <;> cases b <;> simp [spanMinutes]
    constructor
    · simp only [calculateWorkingTime]
      exact add_nonneg (hspan _ _) (hspan _ _)
    · simp only [calculateWorkingTime]
      exact hspan _ _
  · intro t r k h
    cases hs : r.start_time with
    | null =>
      simp only [calculateLateDuration, hs, Option.some.injEq] at h
      omega
    | bad =>
      simp only [calculateLateDuration, hs] at h
      exact absurd h (by simp)
    | ok m =>
      simp only [calculateLateDuration, hs, Option.some.injEq] at h
      subst h
      exact le_max_left 0 _
  · intro a r
    cases hc : a.first_check_in_time with
    | none => simp [calculateLateness, hc]
    | some t =>
      cases hs : r.start_time with
      | null => simp [calculateLateness, hc, hs, TimeField.truthy]
      | bad => simp [calculateLateness, hc, hs, TimeField.truthy, combine]
      | ok m =>
        by_cases hpos :
            0 < t - (dateOf t * msPerDay + (m : Int) * msPerMinute)
        · simp [calculateLateness, hc, hs, TimeField.truthy, combine, hpos]
          exact Int.fdiv_nonneg (le_of_lt hpos) (by norm_num [msPerMinute])
        · simp [calculateLateness, hc, hs, TimeField.truthy, combine, hpos]
  · intro rosters e t d
    simp only [calculateRosterBasedLateness]
    split
    · exact le_refl 0
    · split
      · exact le_refl 0
      · split
        · exact le_refl 0
        · split
          · exact le_refl 0
          · split
            · next h =>
                exact Int.fdiv_nonneg (le_of_lt h) (by norm_num [msPerMinute])
            · exact le_refl 0
  · intro fco et th
    cases fco <;> cases et <;> simp [sqlEarlyDepartureMinutes]

theorem c3_witness :
    (0 ≤ (calculateWorkingTime (some (720 * msPerMinute)) (some 0) none
      none).totalMinutes) ∧
    (0 : Int) ≤ 20 ∧
    0 ≤ (calculateLateness ⟨some 0⟩
      { id := 9, employee_id := 1, start_date := 0, end_date := 0,
        start_time := TimeField.ok 480,
        end_time := TimeField.ok 1020 }).lateMinutes ∧
    0 ≤ calculateRosterBasedLateness [] 1 0 0 ∧
    0 ≤ sqlEarlyDepartureMinutes (some 0) (TimeField.ok 480) (some 1000) :=
  ⟨(c3_derived_metrics_nonneg.1 (some (720 * msPerMinute)) (some 0) none
      none).1,
   c3_derived_metrics_nonneg.2.1 (500 * msPerMinute)
     { id := 9, employee_id := 1, start_date := 0, end_date := 0,
       start_time := TimeField.ok 480, end_time := TimeField.ok 1020 }
     20 (by decide),
   c3_derived_metrics_nonneg.2.2.1 ⟨some 0⟩
     { id := 9, employee_id := 1, start_date := 0, end_date := 0,
       start_time := TimeField.ok 480, end_time := TimeField.ok 1020 },
   c3_derived_metrics_nonneg.2.2.2.1 [] 1 0 0,
   c3_derived_metrics_nonneg.2.2.2.2 (some 0) (TimeField.ok 480)
     (some 1000)⟩

/-- Claim C9 (amended): merging two disjoint record sets' partial sums
matches aggregating their union provided additionally that no employee has
records in both sets: the additive sums (record counts, on-time counts,
late-minute and working-minute totals) always merge, but the
distinct-employee count — and with it `averageAttendance` — is not a sum
and only merges when the two sets' employee-id collections are disjoint. -/
theorem c9_merge_needs_disjoint_employees (A B : List InsightRecord)
    (h : List.Disjoint (A.map fun r => r.employee_idOpt)
      (B.map fun r => r.employee_idOpt)) :
    deptSumsOf (A ++ B) = mergeSums (deptSumsOf A) (deptSumsOf B) ∧
    deptStatsOf (A ++ B) =
      deriveStats (mergeSums (deptSumsOf A) (deptSumsOf B)) := by
  have hdisj : Disjoint (A.map fun r => r.employee_idOpt).toFinset
      (B.map fun r => r.employee_idOpt).toFinset :=
    List.disjoint_toFinset_iff_disjoint.mpr h
  have hcard : ((A ++ B).map fun r => r.employee_idOpt).dedup.length =
      (A.map fun r => r.employee_idOpt).dedup.length +
      (B.map fun r => r.employee_idOpt).dedup.length := by
    rw [← List.card_toFinset, ← List.card_toFinset, ← List.card_toFinset,
      List.map_append, List.toFinset_append,
      Finset.card_union_of_disjoint hdisj]
  have hsums : deptSumsOf (A ++ B) =
      mergeSums (deptSumsOf A) (deptSumsOf B) := by
    simp only [deptSumsOf, mergeSums, DeptSums.mk.injEq]
    refine ⟨hcard, List.length_append A B, ?_, ?_, ?_⟩
    · rw [List.filter_append, List.length_append]
    · rw [List.map_append, List.sum_append]
    · rw [List.map_append, List.sum_append]
  exact ⟨hsums, by rw [deptStatsOf, hsums]⟩

theorem c9_witness :
    deptSumsOf ([⟨some 1, 0, some 0, some 0⟩] ++
        [⟨some 2, 1, some 0, some 0⟩]) =
      mergeSums (deptSumsOf [⟨some 1, 0, some 0, some 0⟩])
        (deptSumsOf [⟨some 2, 1, some 0, some 0⟩]) ∧
    deptStatsOf ([⟨some 1, 0, some 0, some 0⟩] ++
        [⟨some 2, 1, some 0, some 0⟩]) =
      deriveStats (mergeSums (deptSumsOf [⟨some 1, 0, some 0, some 0⟩])
        (deptSumsOf [⟨some 2, 1, some 0, some 0⟩])) :=
  c9_merge_needs_disjoint_employees [⟨some 1, 0, some 0, some 0⟩]
    [⟨some 2, 1, some 0, some 0⟩]
    (by intro a ha hb; simp_all)

theorem c9_counterexample :
    (⟨some 1, 0, some 0, some 0⟩ : InsightRecord) ≠
      ⟨some 1, 1, some 0, some 0⟩ ∧
    mergeSums (deptSumsOf [⟨some 1, 0, some 0, some 0⟩])
        (deptSumsOf [⟨some 1, 1, some 0, some 0⟩]) ≠
      deptSumsOf ([⟨some 1, 0, some 0, some 0⟩] ++
        [⟨some 1, 1, some 0, some 0⟩]) ∧
    (deriveStats (mergeSums (deptSumsOf [⟨some 1, 0, some 0, some 0⟩])
        (deptSumsOf [⟨some 1, 1, some 0, some 0⟩]))).averageAttendance = 100 ∧
    (deptStatsOf ([⟨some 1, 0, some 0, some 0⟩] ++
        [⟨some 1, 1, some 0, some 0⟩])).averageAttendance = 200 := by
  have hA : deptSumsOf [(⟨some 1, 0, some 0, some 0⟩ : InsightRecord)] =
      ⟨1, 1, 1, 0, 0⟩ := by decide
  have hB : deptSumsOf [(⟨some 1, 1, some 0, some 0⟩ : InsightRecord)] =
      ⟨1, 1, 1, 0, 0⟩ := by decide
  have hAB : deptSumsOf ([(⟨some 1, 0, some 0, some 0⟩ : InsightRecord)] ++
      [⟨some 1, 1, some 0, some 0⟩]) = ⟨1, 2, 2, 0, 0⟩ := by decide
  refine ⟨by decide, ?_, ?_, ?_⟩
  · rw [hA, hB, hAB]
    intro hcontra
    simp [mergeSums, DeptSums.mk.injEq] at hcontra
  · rw [hA, hB]
    norm_num [deriveStats, mergeSums]
  · rw [deptStatsOf, hAB]
    norm_num [deriveStats]

/-- Claim C10 (amended): the insights aggregator counts a record with a
null or missing `minutes_late` as on-time and not late, and in every date
partition `onTimeCount + lateCount` equals the partition's record count
provided no record carries a negative `minutes_late` — a record with a
truthy negative value is counted in neither bucket (see the
counterexample). -/
theorem c10_null_on_time_and_partition (l : List InsightRecord)
    (h : ∀ r ∈ l, 0 ≤ r.minutes_late.getD 0) :
    isOnTimeRecord none = true ∧ isLateRecord none = false ∧
    onTimeCount l + lateCount l = l.length := by
  refine ⟨rfl, rfl, ?_⟩
  revert h
  induction l with
  | nil => intro _; rfl
  | cons a t ih =>
    intro h
    have ha := h a (List.mem_cons_self a t)
    have ih2 := ih (fun r hr => h r (List.mem_cons_of_mem a hr))
    rcases hm : a.minutes_late with _ | k
    · simp [onTimeCount, lateCount, List.filter_cons, hm, isOnTimeRecord,
        isLateRecord] at ih2 ⊢
      omega
    · rw [hm] at ha
      simp only [Option.getD_some] at ha
      by_cases hk : k = 0
      · subst hk
        simp [onTimeCount, lateCount, List.filter_cons, hm, isOnTimeRecord,
          isLateRecord] at ih2 ⊢
        omega
      · have hpos : 0 < k := lt_of_le_of_ne ha (Ne.symm hk)
        simp [onTimeCount, lateCount, List.filter_cons, hm, isOnTimeRecord,
          isLateRecord, hk, hpos] at ih2 ⊢
        omega

theorem c10_witness :
    isOnTimeRecord none = true ∧ isLateRecord none = false ∧
    onTimeCount [⟨some 1, 0, none, none⟩, ⟨some 1, 1, some 5, none⟩] +
        lateCount [⟨some 1, 0, none, none⟩, ⟨some 1, 1, some 5, none⟩] =
      ([⟨some 1, 0, none, none⟩,
        ⟨some 1, 1, some 5, none⟩] : List InsightRecord).length :=
  c10_null_on_time_and_partition
    [⟨some 1, 0, none, none⟩, ⟨some 1, 1, some 5, none⟩] (by decide)

theorem c10_counterexample :
    isOnTimeRecord (some (-1)) = false ∧
    isLateRecord (some (-1)) = false ∧
    onTimeCount [⟨some 1, 0, some (-1), none⟩] +
        lateCount [⟨some 1, 0, some (-1), none⟩] ≠
      ([⟨some 1, 0, some (-1), none⟩] : List InsightRecord).length := by
  decide

end DutchTrails
